import Mathlib

/-!
Verification of the HeatShield real-time weather-risk engine.

Shallow embedding of the backend source (Node/Express + Socket.IO) in Lean 4,
over exact rational arithmetic (ℚ stands in for JS numbers; the formulas
involved are plain field operations, `Math.min`/`Math.max`, and
`Math.round`-based decimal rounding, all of which are modelled exactly).

Source files embedded:
- src/backend/services/mlService.js      (computeRiskScoreFallback, classifyRisk, predictRisk)
- src/backend/services/weatherService.js (getLiveWeather, getMockWeather, getHourlyHeatData)
- src/backend/server.js                  (broadcastWeatherUpdate, io.on connection handlers)
- src/backend/routes/forecast.js         (GET /hourly summary statistics)

String-valued tags in the source ("open-meteo" / "openweathermap" / "mock",
"fallback" / external) are modelled as inductive tags, matching the spec's
abstract vocabulary (`primary` / `secondary` / `synthetic`,
`local-fallback` / `external`); the correspondence is recorded at each
definition.
-/

namespace HeatShield

/-- JS `Math.min(Math.max(x, lo), hi)` as used throughout the scorer. -/
def clamp (x lo hi : ℚ) : ℚ := min (max x lo) hi

/-- JS `Math.round`: rounds half toward +infinity (`Math.round(0.5) = 1`,
`Math.round(-0.5) = 0`), i.e. `⌊x + 1/2⌋`. -/
def jsRound (x : ℚ) : ℚ := (⌊x + 1/2⌋ : ℤ)

/-- JS `Math.round(x * 100) / 100` — round to 2 decimal places. -/
def round2 (x : ℚ) : ℚ := jsRound (x * 100) / 100

/-- JS `Math.round(x * 10) / 10` — round to 1 decimal place. -/
def round1 (x : ℚ) : ℚ := jsRound (x * 10) / 10

/-- Risk categories returned by `classifyRisk` (mlService.js). -/
inductive RiskCategory
  | Low
  | Medium
  | High
  | Severe
deriving DecidableEq, Repr

/-- mlService.js lines 14–31, `computeRiskScoreFallback(temperature, humidity,
windSpeed)`: the Rothfusz heat-index regression in Fahrenheit converted back
to Celsius, four clamped factors, a clamped sum, rounded to 2 decimals. -/
def computeRiskScoreFallback (temperature humidity windSpeed : ℚ) : ℚ :=
  let T : ℚ := temperature * 9 / 5 + 32
  let RH : ℚ := humidity
  let HI0 : ℚ :=
    (-42.379 : ℚ) + (2.04901523 : ℚ) * T + (10.14333127 : ℚ) * RH
      - (0.22475541 : ℚ) * T * RH - (0.00683783 : ℚ) * T * T
      - (0.05481717 : ℚ) * RH * RH + (0.00122874 : ℚ) * T * T * RH
      + (0.00085282 : ℚ) * T * RH * RH - (0.00000199 : ℚ) * T * T * RH * RH
  let HI : ℚ := (HI0 - 32) * 5 / 9
  let tempFactor : ℚ := min (max ((temperature - 25) / 25) 0) 1 * 40
  let hiFactor : ℚ := min (max ((HI - 30) / 30) 0) 1 * 35
  let humidityFactor : ℚ := min (max (humidity / 100) 0) 1 * 20
  let windRelief : ℚ := min (max (windSpeed / 30) 0) 1 * 5
  let score : ℚ := min (max (tempFactor + hiFactor + humidityFactor - windRelief) 0) 100
  round2 score

/-- mlService.js lines 33–38, `classifyRisk(score)`. -/
def classifyRisk (score : ℚ) : RiskCategory :=
  if score < 25 then .Low
  else if score < 50 then .Medium
  else if score < 75 then .High
  else .Severe

/-! Spec-side restatement of §4.3 RiskScorer, written from the spec's own
wording, to be compared against `computeRiskScoreFallback`. -/

/-- Spec §4.3 step 1: Rothfusz heat index, inputs converted to Fahrenheit
internally, result converted back to Celsius. -/
def specHeatIndexC (tempC humidityPct : ℚ) : ℚ :=
  let T : ℚ := tempC * 9 / 5 + 32
  let RH : ℚ := humidityPct
  let HI : ℚ :=
    (-42.379 : ℚ) + (2.04901523 : ℚ) * T + (10.14333127 : ℚ) * RH
      - (0.22475541 : ℚ) * T * RH - (0.00683783 : ℚ) * T * T
      - (0.05481717 : ℚ) * RH * RH + (0.00122874 : ℚ) * T * T * RH
      + (0.00085282 : ℚ) * T * RH * RH - (0.00000199 : ℚ) * T * T * RH * RH
  (HI - 32) * 5 / 9

/-- Spec §4.3 step 2: `tempFactor = clamp((tempC−25)/25, 0, 1) × 40`. -/
def specTempFactor (tempC : ℚ) : ℚ := clamp ((tempC - 25) / 25) 0 1 * 40

/-- Spec §4.3 step 3: `heatIndexFactor = clamp((HI−30)/30, 0, 1) × 35`. -/
def specHeatIndexFactor (tempC humidityPct : ℚ) : ℚ :=
  clamp ((specHeatIndexC tempC humidityPct - 30) / 30) 0 1 * 35

/-- Spec §4.3 step 4: `humidityFactor = clamp(humidityPct/100, 0, 1) × 20`. -/
def specHumidityFactor (humidityPct : ℚ) : ℚ := clamp (humidityPct / 100) 0 1 * 20

/-- Spec §4.3 step 5: `windRelief = clamp(windKmh/30, 0, 1) × 5`. -/
def specWindRelief (windKmh : ℚ) : ℚ := clamp (windKmh / 30) 0 1 * 5

/-- Spec §4.3 step 6: the clamped sum, rounded to 2 decimal places. -/
def specRiskScore (tempC humidityPct windKmh : ℚ) : ℚ :=
  round2 (clamp
    (specTempFactor tempC + specHeatIndexFactor tempC humidityPct
      + specHumidityFactor humidityPct - specWindRelief windKmh) 0 100)

/-! Basic facts about the rounding and clamping primitives. -/

theorem jsRound_mono {x y : ℚ} (h : x ≤ y) : jsRound x ≤ jsRound y := by
  unfold jsRound
  exact_mod_cast Int.floor_le_floor (by linarith)

theorem round2_mono {x y : ℚ} (h : x ≤ y) : round2 x ≤ round2 y := by
  unfold round2
  have := jsRound_mono (mul_le_mul_of_nonneg_right h (by norm_num : (0:ℚ) ≤ 100))
  linarith

theorem round2_zero : round2 0 = 0 := by
  unfold round2 jsRound
  norm_num

theorem round2_hundred : round2 100 = 100 := by
  unfold round2 jsRound
  norm_num

theorem clamp_le (x lo hi : ℚ) : clamp x lo hi ≤ hi := min_le_right _ _

theorem le_clamp (x lo hi : ℚ) (h : lo ≤ hi) : lo ≤ clamp x lo hi :=
  le_min (le_max_right _ _) h

theorem clamp_mono {x y : ℚ} (lo hi : ℚ) (h : x ≤ y) : clamp x lo hi ≤ clamp y lo hi :=
  min_le_min (max_le_max h le_rfl) le_rfl

/-- The fallback scorer is, definitionally, the spec's §4.3 pipeline. -/
theorem computeRiskScoreFallback_eq_spec (t h w : ℚ) :
    computeRiskScoreFallback t h w = specRiskScore t h w := rfl

theorem specRiskScore_nonneg (t h w : ℚ) : 0 ≤ specRiskScore t h w := by
  have h0 : (0:ℚ) ≤ clamp (specTempFactor t + specHeatIndexFactor t h
      + specHumidityFactor h - specWindRelief w) 0 100 :=
    le_clamp _ 0 100 (by norm_num)
  calc (0:ℚ) = round2 0 := round2_zero.symm
    _ ≤ _ := round2_mono h0

theorem specRiskScore_le_hundred (t h w : ℚ) : specRiskScore t h w ≤ 100 := by
  have h1 : clamp (specTempFactor t + specHeatIndexFactor t h
      + specHumidityFactor h - specWindRelief w) 0 100 ≤ 100 := clamp_le _ 0 100
  calc specRiskScore t h w ≤ round2 100 := round2_mono h1
    _ = 100 := round2_hundred

/-- C1: `computeRiskScoreFallback` computes exactly the spec's clamped
weighted sum — tempFactor + heatIndexFactor + humidityFactor − windRelief,
clamped to [0, 100] and rounded to 2 decimal places, with the heat index
given by the Rothfusz regression in Fahrenheit converted back to Celsius —
and the returned score always lies in [0, 100]. -/
theorem riskScorer_matches_spec_and_bounded (tempC humidityPct windKmh : ℚ) :
    computeRiskScoreFallback tempC humidityPct windKmh
      = specRiskScore tempC humidityPct windKmh ∧
    0 ≤ computeRiskScoreFallback tempC humidityPct windKmh ∧
    computeRiskScoreFallback tempC humidityPct windKmh ≤ 100 := by
  refine ⟨computeRiskScoreFallback_eq_spec tempC humidityPct windKmh, ?_, ?_⟩
  · rw [computeRiskScoreFallback_eq_spec]
    exact specRiskScore_nonneg tempC humidityPct windKmh
  · rw [computeRiskScoreFallback_eq_spec]
    exact specRiskScore_le_hundred tempC humidityPct windKmh

/-- C2: `classifyRisk` implements the half-open threshold intervals —
Low below 25, Medium on [25, 50), High on [50, 75), Severe at and above 75 —
so boundary scores 25, 50, 75 land in the higher category and 24.99 is Low. -/
theorem classifyRisk_thresholds (score : ℚ) :
    (classifyRisk score = .Low ↔ score < 25) ∧
    (classifyRisk score = .Medium ↔ 25 ≤ score ∧ score < 50) ∧
    (classifyRisk score = .High ↔ 50 ≤ score ∧ score < 75) ∧
    (classifyRisk score = .Severe ↔ 75 ≤ score) ∧
    classifyRisk 25 = .Medium ∧ classifyRisk 50 = .High ∧
    classifyRisk 75 = .Severe ∧ classifyRisk (24.99 : ℚ) = .Low := by
  refine ⟨?_, ?_, ?_, ?_, by norm_num [classifyRisk], by norm_num [classifyRisk],
    by norm_num [classifyRisk], by norm_num [classifyRisk]⟩ <;>
    unfold classifyRisk <;> split_ifs <;> simp_all [not_lt] <;> intros <;> linarith

theorem specWindRelief_mono {w1 w2 : ℚ} (h : w1 ≤ w2) :
    specWindRelief w1 ≤ specWindRelief w2 := by
  unfold specWindRelief
  exact mul_le_mul_of_nonneg_right
    (clamp_mono 0 1 ((div_le_div_iff_of_pos_right (by norm_num)).mpr h)) (by norm_num)

theorem specWindRelief_saturates {w : ℚ} (hw : 30 ≤ w) : specWindRelief w = 5 := by
  have h1 : (1:ℚ) ≤ w / 30 := (le_div_iff₀ (by norm_num)).mpr (by linarith)
  unfold specWindRelief clamp
  rw [max_eq_left (le_trans zero_le_one h1), min_eq_right h1]
  norm_num

/-- C10: for fixed temperature and humidity the local risk score is weakly
decreasing in wind speed, and every wind speed at or above 30 km/h yields the
same score as wind exactly 30 (the wind-relief term saturates at 5). -/
theorem riskScore_antitone_in_wind (t h w1 w2 : ℚ) (hw : w1 ≤ w2) :
    computeRiskScoreFallback t h w2 ≤ computeRiskScoreFallback t h w1 ∧
    (30 ≤ w1 → computeRiskScoreFallback t h w1 = computeRiskScoreFallback t h 30) := by
  constructor
  · rw [computeRiskScoreFallback_eq_spec, computeRiskScoreFallback_eq_spec]
    unfold specRiskScore
    exact round2_mono (clamp_mono 0 100 (by linarith [specWindRelief_mono hw]))
  · intro h30
    rw [computeRiskScoreFallback_eq_spec, computeRiskScoreFallback_eq_spec]
    unfold specRiskScore
    rw [specWindRelief_saturates h30, specWindRelief_saturates (le_refl (30:ℚ))]

/-- Witness for C10 at temperature 40 °C, humidity 50 %, winds 31 ≤ 35 km/h. -/
theorem riskScore_antitone_in_wind_witness :
    computeRiskScoreFallback 40 50 35 ≤ computeRiskScoreFallback 40 50 31 ∧
    computeRiskScoreFallback 40 50 31 = computeRiskScoreFallback 40 50 30 := by
  have hthm := riskScore_antitone_in_wind 40 50 31 35 (by norm_num)
  exact ⟨hthm.1, hthm.2 (by norm_num)⟩

/-! §4.2 ScoringGateway — mlService.js `predictRisk` (lines 44–70).

The external call's outcome is made explicit: a timeout or transport error
(the axios rejection), an explicit failure indicator
(`response.data.success` false, re-thrown at line 55), or a success carrying
the service's prediction. -/

/-- Scoring provenance: the source line `source: "fallback"` (mlService.js
line 67) is the spec's `local-fallback` tag; predictions passed through from
the ML microservice are the spec's `external`. -/
inductive ScoreSource
  | external
  | localFallback
deriving DecidableEq, Repr

/-- The prediction object inside a successful ML-service response. -/
structure ExternalPrediction where
  risk_score : ℚ
  risk_category : RiskCategory
  confidence : ℚ
deriving DecidableEq, Repr

/-- The RiskPrediction returned by `predictRisk`. -/
structure RiskPrediction where
  risk_score : ℚ
  risk_category : RiskCategory
  confidence : ℚ
  source : ScoreSource
deriving DecidableEq, Repr

/-- Outcome of the one bounded-timeout POST to the scoring service. -/
inductive MlServiceOutcome
  | timeout
  | transportError
  | failureFlag
  | success (p : ExternalPrediction)
deriving DecidableEq, Repr

/-- The outcome lands in `predictRisk`'s catch block. -/
def MlServiceOutcome.isFailure : MlServiceOutcome → Bool
  | .success _ => false
  | _ => true

/-- mlService.js lines 44–70, `predictRisk(temperature, humidity, windSpeed)`:
pass the external prediction through on success; on any failure compute the
score locally via `computeRiskScoreFallback` and `classifyRisk` with fixed
confidence 85.0 and the fallback source tag. -/
def predictRisk (outcome : MlServiceOutcome) (temperature humidity windSpeed : ℚ) :
    RiskPrediction :=
  match outcome with
  | .success p =>
      { risk_score := p.risk_score, risk_category := p.risk_category,
        confidence := p.confidence, source := .external }
  | _ =>
      let riskScore := computeRiskScoreFallback temperature humidity windSpeed
      { risk_score := riskScore, risk_category := classifyRisk riskScore,
        confidence := 85, source := .localFallback }

/-- C3: whenever the external scoring call fails (timeout, transport error,
or explicit failure indicator), `predictRisk` returns the local scorer's
score and category, confidence exactly 85.0 and the local-fallback tag, and
any two failure outcomes on the same input give the identical prediction. -/
theorem predictRisk_fallback (outcome : MlServiceOutcome) (t h w : ℚ)
    (hfail : outcome.isFailure = true) :
    (predictRisk outcome t h w).risk_score = computeRiskScoreFallback t h w ∧
    (predictRisk outcome t h w).risk_category
      = classifyRisk (computeRiskScoreFallback t h w) ∧
    (predictRisk outcome t h w).confidence = 85 ∧
    (predictRisk outcome t h w).source = .localFallback ∧
    (∀ outcome2 : MlServiceOutcome, outcome2.isFailure = true →
      predictRisk outcome2 t h w = predictRisk outcome t h w) := by
  cases outcome with
  | success p => simp [MlServiceOutcome.isFailure] at hfail
  | timeout =>
      refine ⟨rfl, rfl, rfl, rfl, ?_⟩
      intro o2 h2
      cases o2 <;> first | rfl | simp [MlServiceOutcome.isFailure] at h2
  | transportError =>
      refine ⟨rfl, rfl, rfl, rfl, ?_⟩
      intro o2 h2
      cases o2 <;> first | rfl | simp [MlServiceOutcome.isFailure] at h2
  | failureFlag =>
      refine ⟨rfl, rfl, rfl, rfl, ?_⟩
      intro o2 h2
      cases o2 <;> first | rfl | simp [MlServiceOutcome.isFailure] at h2

/-- Witness for C3: a timeout on the spec's end-to-end scenario input
(42 °C, 20 %, 5 km/h). -/
theorem predictRisk_fallback_witness :
    (predictRisk .timeout 42 20 5).risk_score = computeRiskScoreFallback 42 20 5 ∧
    (predictRisk .timeout 42 20 5).risk_category
      = classifyRisk (computeRiskScoreFallback 42 20 5) ∧
    (predictRisk .timeout 42 20 5).confidence = 85 ∧
    (predictRisk .timeout 42 20 5).source = .localFallback ∧
    predictRisk .transportError 42 20 5 = predictRisk .timeout 42 20 5 := by
  have hthm := predictRisk_fallback .timeout 42 20 5 rfl
  exact ⟨hthm.1, hthm.2.1, hthm.2.2.1, hthm.2.2.2.1, hthm.2.2.2.2 .transportError rfl⟩

/-! §4.1 UpstreamResolver — weatherService.js `getLiveWeather` (lines 63–108
of that file; tier 1 Open-Meteo, tier 2 OpenWeatherMap when a key is
configured, tier 3 the mock generator). -/

/-- Provider provenance: `"open-meteo"` is the spec's `primary` tier,
`"openweathermap"` the `secondary` tier, `"mock"` the `synthetic` tier. -/
inductive ProviderTag
  | primary
  | secondary
  | synthetic
deriving DecidableEq, Repr

/-- A Measurement as produced by the resolver (description, icon, pressure
and the ISO timestamp string are not claim-relevant and are omitted). -/
structure Measurement where
  city : String
  temperature : ℚ
  humidity : ℚ
  wind_speed : ℚ
  feels_like : ℚ
  source : ProviderTag
deriving DecidableEq, Repr

/-- weatherService.js `CITY_COORDS`: the static city → (lat, lon) registry. -/
def CITY_COORDS : List (String × ℚ × ℚ) :=
  [("Delhi", 28.6139, 77.2090), ("Mumbai", 19.0760, 72.8777),
   ("Chennai", 13.0827, 80.2707), ("Kolkata", 22.5726, 88.3639),
   ("Bengaluru", 12.9716, 77.5946), ("Hyderabad", 17.3850, 78.4867),
   ("Ahmedabad", 23.0225, 72.5714), ("Jaipur", 26.9124, 75.7873),
   ("Lucknow", 26.8467, 80.9462), ("Nagpur", 21.1458, 79.0882),
   ("Bhopal", 23.2599, 77.4126), ("Varanasi", 25.3176, 82.9739),
   ("Patna", 25.6093, 85.1376), ("Thiruvananthapuram", 8.5241, 76.9366),
   ("Chandigarh", 30.7333, 76.7794)]

/-- `CITY_COORDS[city]`: the registry lookup used by every provider tier. -/
def coordsOf (city : String) : Option (ℚ × ℚ) :=
  (CITY_COORDS.find? (fun e => e.1 = city)).map (fun e => e.2)

/-- weatherService.js `getSupportedCities()`: `Object.keys(CITY_COORDS)`. -/
def getSupportedCities : List String := CITY_COORDS.map (fun e => e.1)

/-- The current-weather fields consumed from a live provider response. -/
structure RawWeather where
  temperature : ℚ
  humidity : ℚ
  wind_speed : ℚ
  feels_like : ℚ
deriving DecidableEq, Repr

/-- The three `Math.random()` draws `getMockWeather` makes, each in [0, 1). -/
structure MockRng where
  r1 : ℚ
  r2 : ℚ
  r3 : ℚ
deriving DecidableEq, Repr

/-- The environment a resolver run sees: per-city outcome of the Open-Meteo
call (`none` = any caught error, including unknown coordinates upstream),
whether `OPENWEATHER_API_KEY` is configured, the per-city outcome of the
OpenWeatherMap call, and the pseudo-random draws for the mock tier. -/
structure UpstreamEnv where
  openMeteo : String → Option RawWeather
  owmConfigured : Bool
  owm : String → Option RawWeather
  rng : MockRng

/-- weatherService.js `baseTemps` (getMockWeather): `baseTemps[city] || 30`. -/
def baseTempOf (city : String) : ℚ :=
  (([("Delhi", (32:ℚ)), ("Mumbai", 30), ("Chennai", 31), ("Kolkata", 30),
     ("Bengaluru", 27), ("Hyderabad", 31), ("Ahmedabad", 33), ("Jaipur", 30),
     ("Lucknow", 28), ("Nagpur", 33), ("Bhopal", 30), ("Varanasi", 29),
     ("Patna", 28), ("Thiruvananthapuram", 29), ("Chandigarh", 25)].find?
    (fun e => e.1 = city)).map (fun e => e.2)).getD 30

/-- weatherService.js `baseHumidity` (getMockWeather):
`baseHumidity[city] || 50`. -/
def baseHumidityOf (city : String) : ℚ :=
  (([("Delhi", (45:ℚ)), ("Mumbai", 70), ("Chennai", 65), ("Kolkata", 65),
     ("Bengaluru", 55), ("Hyderabad", 50), ("Ahmedabad", 40), ("Jaipur", 35),
     ("Lucknow", 50), ("Nagpur", 35), ("Bhopal", 40), ("Varanasi", 50),
     ("Patna", 55), ("Thiruvananthapuram", 75), ("Chandigarh", 45)].find?
    (fun e => e.1 = city)).map (fun e => e.2)).getD 50

/-- weatherService.js `getMockWeather(city)`: per-city baseline plus bounded
pseudo-random variation, humidity clamped into [10, 95], all rounded to one
decimal; tagged `"mock"` (= `synthetic`). -/
def getMockWeather (env : UpstreamEnv) (city : String) : Measurement :=
  let temp := baseTempOf city + (env.rng.r1 * 4 - 2)
  let humidity := baseHumidityOf city + (env.rng.r2 * 10 - 5)
  let windSpeed := env.rng.r3 * 15 + 2
  { city := city
    temperature := round1 temp
    humidity := round1 (clamp humidity 10 95)
    wind_speed := round1 windSpeed
    feels_like := round1 (temp + humidity * (0.1 : ℚ))
    source := .synthetic }

/-- weatherService.js `getOpenMeteoWeather(city)`: `none` when the city has
no coordinates or the request errored; otherwise the response fields rounded
to one decimal and tagged `"open-meteo"` (= `primary`). -/
def getOpenMeteoWeather (env : UpstreamEnv) (city : String) : Option Measurement :=
  match coordsOf city with
  | none => none
  | some _ =>
      (env.openMeteo city).map (fun raw =>
        { city := city
          temperature := round1 raw.temperature
          humidity := round1 raw.humidity
          wind_speed := round1 raw.wind_speed
          feels_like := round1 raw.feels_like
          source := .primary })

/-- weatherService.js lines 63–108, `getLiveWeather(city)`: tier 1
Open-Meteo; on failure tier 2 OpenWeatherMap (only when the API key is
configured and the city has coordinates); on failure the mock generator.
Total: every path returns a Measurement. -/
def getLiveWeather (env : UpstreamEnv) (city : String) : Measurement :=
  match getOpenMeteoWeather env city with
  | some m => m
  | none =>
      match env.owmConfigured, coordsOf city, env.owm city with
      | true, some _, some raw =>
          { city := city
            temperature := raw.temperature
            humidity := raw.humidity
            wind_speed := raw.wind_speed
            feels_like := raw.feels_like
            source := .secondary }
      | _, _, _ => getMockWeather env city

/-- C4: `getLiveWeather` is a total function into Measurement (the resolver
never propagates an error), and whenever the city id is absent from
CITY_COORDS — or every live tier fails — the result is the mock generator's
Measurement, tagged `synthetic`. -/
theorem getLiveWeather_total_synthetic (env : UpstreamEnv) (city : String)
    (hfail : coordsOf city = none ∨
      (env.openMeteo city = none ∧
        (env.owmConfigured = false ∨ env.owm city = none))) :
    getLiveWeather env city = getMockWeather env city ∧
    (getLiveWeather env city).source = .synthetic := by
  have hmock : getLiveWeather env city = getMockWeather env city := by
    unfold getLiveWeather getOpenMeteoWeather
    rcases hfail with hco | ⟨hom, howm⟩
    · rw [hco]
      cases hb : env.owmConfigured <;> rfl
    · rw [hom]
      cases hc : coordsOf city
      · cases hb : env.owmConfigured <;> rfl
      · rcases howm with hk | hw
        · rw [hk]
          cases hw2 : env.owm city <;> rfl
        · rw [hw]
          cases hb : env.owmConfigured <;> rfl
  exact ⟨hmock, by rw [hmock]; rfl⟩

/-- Witness for C4: a total outage environment and the unregistered city id
"Atlantis". -/
theorem getLiveWeather_total_synthetic_witness :
    getLiveWeather
        ⟨fun _ => none, false, fun _ => none, ⟨0, 0, 0⟩⟩ "Atlantis"
      = getMockWeather ⟨fun _ => none, false, fun _ => none, ⟨0, 0, 0⟩⟩ "Atlantis" ∧
    (getLiveWeather
        ⟨fun _ => none, false, fun _ => none, ⟨0, 0, 0⟩⟩ "Atlantis").source
      = .synthetic :=
  getLiveWeather_total_synthetic
    ⟨fun _ => none, false, fun _ => none, ⟨0, 0, 0⟩⟩ "Atlantis"
    (Or.inl rfl)

/-! §4.4–§4.6 — server.js broadcast engine and socket handlers. -/

/-- One `{city, weather, prediction}` element of a broadcast payload. -/
structure CityEntry where
  city : String
  weather : Measurement
  prediction : RiskPrediction
deriving DecidableEq, Repr

/-- server.js lines 102–110: the body of one per-city promise on its happy
path — resolve the weather, then score it. -/
def perCityTask (env : UpstreamEnv) (mlOutcome : MlServiceOutcome) (city : String) :
    CityEntry :=
  let weather := getLiveWeather env city
  { city := city
    weather := weather
    prediction :=
      predictRisk mlOutcome weather.temperature weather.humidity weather.wind_speed }

/-- server.js lines 117–120: `for (const r of resolved) if (r) results.push(r)`
— collect the non-null per-city results in order. -/
def collectResults (resolved : List (Option CityEntry)) : List CityEntry :=
  resolved.foldl
    (fun results r => match r with | some e => results ++ [e] | none => results) []

/-- The `weather:update` payload (server.js lines 122–126); the ISO timestamp
string is not claim-relevant and omitted. -/
structure BroadcastSnapshot where
  data : List CityEntry
  source : ProviderTag
deriving DecidableEq, Repr

/-- server.js lines 96–132, `broadcastWeatherUpdate`: map every configured
city through its own try/catch per-city task (`attempt city = none` models
that city's promise resolving `null` from its catch block), drop the nulls,
and build the payload; `source` is the first result's provider, defaulting
to `"open-meteo"` (= `primary`). -/
def broadcastWeatherUpdate (cities : List String)
    (attempt : String → Option CityEntry) : BroadcastSnapshot :=
  let resolved := cities.map attempt
  let results := collectResults resolved
  { data := results
    source := (results.head?.map (fun e => e.weather.source)).getD .primary }

theorem collectResults_eq_filterMap (resolved : List (Option CityEntry)) :
    collectResults resolved = resolved.filterMap id := by
  suffices h : ∀ (l : List (Option CityEntry)) (acc : List CityEntry),
      l.foldl (fun results r =>
        match r with | some e => results ++ [e] | none => results) acc
        = acc ++ l.filterMap id by
    simpa [collectResults] using h resolved []
  intro l
  induction l with
  | nil => intro acc; simp
  | cons r rest ih =>
      intro acc
      cases r <;> simp [List.foldl_cons, ih]

theorem countNone_add_filterMap_length (cities : List String)
    (attempt : String → Option CityEntry) :
    (cities.filter (fun c => (attempt c).isNone)).length
      + (cities.filterMap attempt).length = cities.length := by
  induction cities with
  | nil => simp
  | cons c rest ih =>
      cases h : attempt c <;>
        simp [List.filter_cons, List.filterMap_cons, h] at ih ⊢ <;> omega

/-- C5: a broadcast cycle over N configured cities of which K fail per-city
resolution publishes exactly the successful cities' entries in order — one
entry per successful city, failures omitted — so the snapshot holds exactly
N − K entries and no failure aborts the rest of the cycle. -/
theorem broadcast_snapshot_omits_failures (cities : List String)
    (attempt : String → Option CityEntry) :
    (broadcastWeatherUpdate cities attempt).data = cities.filterMap attempt ∧
    (cities.filter (fun c => (attempt c).isNone)).length
      + (broadcastWeatherUpdate cities attempt).data.length = cities.length ∧
    (broadcastWeatherUpdate cities attempt).data.length
      = cities.length - (cities.filter (fun c => (attempt c).isNone)).length := by
  have hdata : (broadcastWeatherUpdate cities attempt).data = cities.filterMap attempt := by
    show collectResults (cities.map attempt) = cities.filterMap attempt
    rw [collectResults_eq_filterMap, List.filterMap_map]
    rfl
  have hcount := countNone_add_filterMap_length cities attempt
  refine ⟨hdata, ?_, ?_⟩ <;> rw [hdata] <;> omega

/-- The broadcast engine's retained state (server.js line 91,
`let lastBroadcastData = null`). -/
structure ServerState where
  lastBroadcastData : Option BroadcastSnapshot
deriving DecidableEq, Repr

/-- State at process start: no snapshot retained yet. -/
def initialServerState : ServerState := ⟨none⟩

/-- server.js line 128: a completed cycle stores its payload,
`lastBroadcastData = payload`, replacing the previous snapshot whole. -/
def completeCycle (st : ServerState) (snap : BroadcastSnapshot) : ServerState :=
  { lastBroadcastData := some snap }

/-- server.js lines 139–145: what a freshly connected socket is sent at
connection time — the retained snapshot if one exists, nothing otherwise. -/
def onConnectionEmits (st : ServerState) : List BroadcastSnapshot :=
  match st.lastBroadcastData with
  | some snap => [snap]
  | none => []

/-- The retained state after a sequence of completed broadcast cycles. -/
def runCycles (st : ServerState) (snaps : List BroadcastSnapshot) : ServerState :=
  snaps.foldl completeCycle st

theorem runCycles_lastBroadcastData (snaps : List BroadcastSnapshot) :
    ∀ st : ServerState,
      (runCycles st snaps).lastBroadcastData
        = snaps.getLast?.or st.lastBroadcastData := by
  induction snaps with
  | nil => intro st; rfl
  | cons s rest ih =>
      intro st
      have hstep : runCycles st (s :: rest) = runCycles (completeCycle st s) rest := rfl
      rw [hstep, ih (completeCycle st s)]
      cases rest with
      | nil => rfl
      | cons r rs =>
          rw [List.getLast?_cons_cons]
          have hsome : ((r :: rs).getLast?).isSome :=
            List.getLast?_isSome.mpr (List.cons_ne_nil r rs)
          cases hx : (r :: rs).getLast? with
          | none => rw [hx] at hsome; simp at hsome
          | some last => rfl

/-- C6: a subscriber connecting after at least one completed broadcast cycle
is immediately sent exactly the retained last snapshot at connection time —
so once any cycle has ever completed, no connecting subscriber observes an
empty state. -/
theorem late_subscriber_gets_retained_snapshot
    (snaps : List BroadcastSnapshot) (h : snaps ≠ []) :
    ∃ last : BroadcastSnapshot, snaps.getLast? = some last ∧
      onConnectionEmits (runCycles initialServerState snaps) = [last] ∧
      onConnectionEmits (runCycles initialServerState snaps) ≠ [] := by
  obtain ⟨last, hlast⟩ := Option.isSome_iff_exists.mp (List.getLast?_isSome.mpr h)
  refine ⟨last, hlast, ?_, ?_⟩ <;>
    · unfold onConnectionEmits
      rw [runCycles_lastBroadcastData snaps initialServerState, hlast]
      simp

/-- Witness for C6: a single completed cycle with an empty-data snapshot. -/
theorem late_subscriber_gets_retained_snapshot_witness :
    onConnectionEmits (runCycles initialServerState [⟨[], .primary⟩])
        = [(⟨[], .primary⟩ : BroadcastSnapshot)] ∧
    onConnectionEmits (runCycles initialServerState [⟨[], .primary⟩]) ≠ [] := by
  obtain ⟨last, hlast, hemit, hne⟩ :=
    late_subscriber_gets_retained_snapshot [⟨[], .primary⟩] (List.cons_ne_nil _ _)
  have hgl : ([(⟨[], .primary⟩ : BroadcastSnapshot)]).getLast?
      = some ⟨[], .primary⟩ := rfl
  rw [hgl] at hlast
  exact ⟨by rw [hemit, Option.some.inj hlast], hne⟩

/-! §4.6 OnDemandCoordinator — server.js lines 148–165, the `request:city`
handler. -/

/-- Where an emission goes: `socket.emit` reaches the requesting socket only;
`io.emit` (used only by the broadcast loop, line 131) reaches all clients. -/
inductive EmitTarget
  | requester
  | allClients
deriving DecidableEq, Repr

/-- The events a handler can emit. -/
inductive SocketEvent
  | weatherUpdate (snap : BroadcastSnapshot)
  | cityUpdate (city : String) (weather : Measurement) (prediction : RiskPrediction)
  | cityError (city : String) (errMsg : String)
deriving DecidableEq, Repr

/-- server.js line 131: the broadcast loop emits `weather:update` to all
connected clients via `io.emit`. -/
def broadcastEmit (snap : BroadcastSnapshot) : List (EmitTarget × SocketEvent) :=
  [(.allClients, .weatherUpdate snap)]

/-- server.js lines 148–165, the `request:city` handler: on success emit
`city:update` with the resolved weather and prediction via `socket.emit`; on
any internal error emit `city:error` with the message via `socket.emit`.
The awaited pipeline's outcome (success value or thrown error message) is
the explicit argument. -/
def handleRequestCity (outcome : Except String (Measurement × RiskPrediction))
    (city : String) : List (EmitTarget × SocketEvent) :=
  match outcome with
  | .ok (weather, prediction) => [(.requester, .cityUpdate city weather prediction)]
  | .error msg => [(.requester, .cityError city msg)]

/-- C7: every emission of the `request:city` handler targets the requesting
subscriber alone — never all clients; an internal error yields exactly one
`city:error` event carrying the city and the message, and a success yields
exactly one `city:update` point event, both to the requester only. -/
theorem requestCity_emits_to_requester_only
    (outcome : Except String (Measurement × RiskPrediction)) (city : String) :
    (∀ e ∈ handleRequestCity outcome city, e.1 = .requester) ∧
    (∀ msg, outcome = .error msg →
      handleRequestCity outcome city = [(.requester, .cityError city msg)]) ∧
    (∀ weather prediction, outcome = .ok (weather, prediction) →
      handleRequestCity outcome city
        = [(.requester, .cityUpdate city weather prediction)]) := by
  refine ⟨?_, ?_, ?_⟩
  · intro e he
    cases outcome with
    | ok wp =>
        cases wp with
        | mk w p => simp [handleRequestCity] at he; rw [he]
    | error msg => simp [handleRequestCity] at he; rw [he]
  · intro msg hmsg
    subst hmsg
    rfl
  · intro weather prediction hok
    subst hok
    rfl

/-- Witness for C7: a failing on-demand request for Delhi. -/
theorem requestCity_emits_to_requester_only_witness :
    handleRequestCity (.error "network down") "Delhi"
        = [(.requester, .cityError "Delhi" "network down")] ∧
    ((.requester, .cityError "Delhi" "network down") :
        EmitTarget × SocketEvent).1 = .requester :=
  ⟨(requestCity_emits_to_requester_only (.error "network down") "Delhi").2.1
      "network down" rfl,
   (requestCity_emits_to_requester_only (.error "network down") "Delhi").1
      (.requester, .cityError "Delhi" "network down")
      (by rw [(requestCity_emits_to_requester_only (.error "network down") "Delhi").2.1
        "network down" rfl]; exact List.mem_singleton.mpr rfl)⟩

/-! §4.7 Hourly Trend Builder — weatherService.js `getHourlyHeatData`
(live path) and `generateMockHourlyData` (synthetic path), plus the summary
statistics of routes/forecast.js `GET /hourly`. -/

/-- Hourly trend tags. -/
inductive Trend
  | rising
  | falling
  | stable
deriving DecidableEq, Repr

/-- The trend classifier applied to a signed temperature delta, as written
identically at weatherService.js lines 406 and 458:
`change > 0.3 ? "rising" : change < -0.3 ? "falling" : "stable"`. -/
def trendOf (change : ℚ) : Trend :=
  if change > (0.3 : ℚ) then .rising
  else if change < (-0.3 : ℚ) then .falling
  else .stable

/-- One element of the hourly series. -/
structure HourlyPoint where
  time : String
  hour : ℕ
  temperature : ℚ
  humidity : ℚ
  wind_speed : ℚ
  feels_like : ℚ
  change : ℚ
  trend : Trend
deriving DecidableEq, Repr

/-- The fields consumed from one hour of the provider's hourly response
(`time`/`hour` stand for the parsed ISO timestamp slices). -/
structure RawHour where
  time : String
  hour : ℕ
  temperature : ℚ
  humidity : ℚ
  wind_speed : ℚ
  apparent : ℚ
deriving DecidableEq, Repr

/-- weatherService.js lines 393–409: one mapped hour of the live path.
`temp` is the rounded current raw temperature; `prevTemp` is the previous
hour's RAW (unrounded) temperature, or `temp` itself for the first hour;
`change = round1(temp − prevTemp)`. -/
def mkHourlyPoint (r : RawHour) (prevRawTemp : Option ℚ) : HourlyPoint :=
  let temp := round1 r.temperature
  let prevTemp := match prevRawTemp with | some p => p | none => temp
  let change := round1 (temp - prevTemp)
  { time := r.time
    hour := r.hour
    temperature := temp
    humidity := jsRound r.humidity
    wind_speed := round1 r.wind_speed
    feels_like := round1 r.apparent
    change := change
    trend := trendOf change }

/-- The map with the previous raw temperature threaded through. -/
def hourlyPointsAux : Option ℚ → List RawHour → List HourlyPoint
  | _, [] => []
  | prev, r :: rest => mkHourlyPoint r prev :: hourlyPointsAux (some r.temperature) rest

/-- weatherService.js `getHourlyHeatData` live path: the hourly response rows
mapped to HourlyPoints. -/
def getHourlyHeatDataLive (raw : List RawHour) : List HourlyPoint :=
  hourlyPointsAux none raw

/-- The zero-padded hour label of the mock generator, weatherService.js
line 451: the hour rendered to two digits, followed by ":00". -/
def timeLabel (h : ℕ) : String :=
  (if h < 10 then "0" ++ toString h else toString h) ++ ":00"

/-- weatherService.js lines 438–461: one iteration of the mock generator's
loop. The sinusoidal-plus-random temperature, the humidity expression and the
wind draw for hour `h` are the oracle inputs `tempAt h`, `humAt h`,
`windAt h`; the loop rounds them, clamps humidity into [15, 95], takes the
previous ROUNDED temperature from the accumulated list (or the current one
for the first hour) and classifies the rounded delta. -/
def mockHourStep (tempAt humAt windAt : ℕ → ℚ) (hours : List HourlyPoint)
    (h : ℕ) : List HourlyPoint :=
  let roundedTemp := round1 (tempAt h)
  let hum : ℚ := jsRound (clamp (humAt h) 15 95)
  let wind := round1 (windAt h)
  let prevTemp := match hours.getLast? with
    | some p => p.temperature
    | none => roundedTemp
  let change := round1 (roundedTemp - prevTemp)
  hours ++ [{ time := timeLabel h
              hour := h
              temperature := roundedTemp
              humidity := hum
              wind_speed := wind
              feels_like := round1 (roundedTemp + hum * (0.08 : ℚ))
              change := change
              trend := trendOf change }]

/-- weatherService.js lines 421–464, `generateMockHourlyData`: 24 loop
iterations starting from the empty list. -/
def generateMockHourlyData (tempAt humAt windAt : ℕ → ℚ) : List HourlyPoint :=
  (List.range 24).foldl (mockHourStep tempAt humAt windAt) []

theorem hourlyPointsAux_trend (raw : List RawHour) :
    ∀ (prev : Option ℚ), ∀ p ∈ hourlyPointsAux prev raw, p.trend = trendOf p.change := by
  induction raw with
  | nil => intro prev p hp; simp [hourlyPointsAux] at hp
  | cons r rest ih =>
      intro prev p hp
      rcases List.mem_cons.mp hp with rfl | hmem
      · rfl
      · exact ih (some r.temperature) p hmem

theorem mockFold_trend (tempAt humAt windAt : ℕ → ℚ) (l : List ℕ) :
    ∀ (acc : List HourlyPoint),
      (∀ p ∈ acc, p.trend = trendOf p.change) →
      ∀ p ∈ l.foldl (mockHourStep tempAt humAt windAt) acc,
        p.trend = trendOf p.change := by
  induction l with
  | nil => intro acc hacc p hp; exact hacc p hp
  | cons h rest ih =>
      intro acc hacc p hp
      refine ih (mockHourStep tempAt humAt windAt acc h) ?_ p hp
      intro q hq
      rcases List.mem_append.mp hq with hq1 | hq2
      · exact hacc q hq1
      · rcases List.mem_singleton.mp hq2 with rfl
        rfl

/-- C8: in both hourly paths every point's trend tag is exactly the
classifier of its signed delta — `rising` iff delta > 0.3, `falling` iff
delta < −0.3, `stable` otherwise — and at the boundary: +0.31 is rising,
−0.31 is falling, 0.0 is stable, and 0.30 exactly is stable. -/
theorem hourly_trend_classification :
    (∀ d : ℚ,
      (trendOf d = .rising ↔ (0.3 : ℚ) < d) ∧
      (trendOf d = .falling ↔ d < (-0.3 : ℚ)) ∧
      (trendOf d = .stable ↔ (-0.3 : ℚ) ≤ d ∧ d ≤ (0.3 : ℚ))) ∧
    (∀ raw : List RawHour, ∀ p ∈ getHourlyHeatDataLive raw,
      p.trend = trendOf p.change) ∧
    (∀ tempAt humAt windAt : ℕ → ℚ,
      ∀ p ∈ generateMockHourlyData tempAt humAt windAt,
        p.trend = trendOf p.change) ∧
    trendOf (0.31 : ℚ) = .rising ∧ trendOf (-0.31 : ℚ) = .falling ∧
    trendOf 0 = .stable ∧ trendOf (0.3 : ℚ) = .stable := by
  refine ⟨?_, ?_, ?_, by norm_num [trendOf], by norm_num [trendOf],
    by norm_num [trendOf], by norm_num [trendOf]⟩
  · intro d
    refine ⟨?_, ?_, ?_⟩ <;>
      · unfold trendOf
        split_ifs <;> simp_all [not_lt] <;> intros <;> linarith
  · exact fun raw => hourlyPointsAux_trend raw none
  · intro tempAt humAt windAt
    exact mockFold_trend tempAt humAt windAt (List.range 24) [] (by simp)

/-- Witness for C8: the second point of a two-row live series (raw
temperatures 30.0 then 31.0) — delta 1.0, tagged rising. -/
theorem hourly_trend_classification_witness :
    (⟨"01:00", 1, 31, 50, 5, 33, 1, .rising⟩ : HourlyPoint).trend
      = trendOf (⟨"01:00", 1, 31, 50, 5, 33, 1, .rising⟩ : HourlyPoint).change :=
  hourly_trend_classification.2.1
    [⟨"00:00", 0, 30, 50, 5, 32⟩, ⟨"01:00", 1, 31, 50, 5, 33⟩]
    ⟨"01:00", 1, 31, 50, 5, 33, 1, .rising⟩
    (by
      have hval : getHourlyHeatDataLive
          [⟨"00:00", 0, 30, 50, 5, 32⟩, ⟨"01:00", 1, 31, 50, 5, 33⟩]
          = [⟨"00:00", 0, 30, 50, 5, 32, 0, .stable⟩,
             ⟨"01:00", 1, 31, 50, 5, 33, 1, .rising⟩] := by
        norm_num [getHourlyHeatDataLive, hourlyPointsAux, mkHourlyPoint,
          round1, jsRound, trendOf]
      rw [hval]
      simp)

/-! routes/forecast.js `GET /hourly` — summary statistics (lines 56–77). -/

/-- `Math.max(...temps)` over the non-empty temperature spread; the empty
case is junk (JS yields -Infinity there) and lies outside every claim. -/
def listPeak : List ℚ → ℚ
  | [] => 0
  | t :: ts => ts.foldl max t

/-- `Math.min(...temps)`, same convention as `listPeak`. -/
def listMinTemp : List ℚ → ℚ
  | [] => 0
  | t :: ts => ts.foldl min t

/-- The `summary` object of the hourly-breakdown response. -/
structure HourlySummary where
  peak_temp : ℚ
  min_temp : ℚ
  peak_hour : String
  total_rise_hours : ℕ
  total_fall_hours : ℕ
  range : ℚ
deriving DecidableEq, Repr

/-- routes/forecast.js lines 56–77: peak and min of the hourly temperatures,
the time of the first point at the peak (`find`, defaulting to "14:00" when
absent), counts of rising and falling points, and the rounded range. The
source binds `temps`/`peakTemp` once in local consts; they are inlined here
unchanged. -/
def hourlySummary (hourlyData : List HourlyPoint) : HourlySummary :=
  { peak_temp := listPeak (hourlyData.map (fun p => p.temperature))
    min_temp := listMinTemp (hourlyData.map (fun p => p.temperature))
    peak_hour :=
      match hourlyData.find? (fun p =>
        p.temperature = listPeak (hourlyData.map (fun p => p.temperature))) with
      | some p => p.time
      | none => "14:00"
    total_rise_hours := (hourlyData.filter (fun p => p.trend = Trend.rising)).length
    total_fall_hours := (hourlyData.filter (fun p => p.trend = Trend.falling)).length
    range := round1 (listPeak (hourlyData.map (fun p => p.temperature))
      - listMinTemp (hourlyData.map (fun p => p.temperature))) }

theorem foldl_max_is_ub (ts : List ℚ) :
    ∀ t : ℚ, t ≤ ts.foldl max t ∧ ∀ x ∈ ts, x ≤ ts.foldl max t := by
  induction ts with
  | nil => intro t; exact ⟨le_refl t, by intro x hx; simp at hx⟩
  | cons a as ih =>
      intro t
      have hrec := ih (max t a)
      refine ⟨le_trans (le_max_left t a) hrec.1, ?_⟩
      intro x hx
      rcases List.mem_cons.mp hx with rfl | hmem
      · exact le_trans (le_max_right t x) hrec.1
      · exact hrec.2 x hmem

theorem foldl_max_mem (ts : List ℚ) : ∀ t : ℚ, ts.foldl max t ∈ t :: ts := by
  induction ts with
  | nil => intro t; exact List.mem_singleton.mpr rfl
  | cons a as ih =>
      intro t
      have hrec := ih (max t a)
      rw [List.foldl_cons]
      rcases List.mem_cons.mp hrec with heq | hmem
      · rw [heq]
        rcases max_choice t a with hc | hc <;> rw [hc]
        · exact List.mem_cons_self t (a :: as)
        · exact List.mem_cons_of_mem t (List.mem_cons_self a as)
      · exact List.mem_cons_of_mem t (List.mem_cons_of_mem a hmem)

theorem foldl_min_is_lb (ts : List ℚ) :
    ∀ t : ℚ, ts.foldl min t ≤ t ∧ ∀ x ∈ ts, ts.foldl min t ≤ x := by
  induction ts with
  | nil => intro t; exact ⟨le_refl t, by intro x hx; simp at hx⟩
  | cons a as ih =>
      intro t
      have hrec := ih (min t a)
      refine ⟨le_trans hrec.1 (min_le_left t a), ?_⟩
      intro x hx
      rcases List.mem_cons.mp hx with rfl | hmem
      · exact le_trans hrec.1 (min_le_right t x)
      · exact hrec.2 x hmem

theorem foldl_min_mem (ts : List ℚ) : ∀ t : ℚ, ts.foldl min t ∈ t :: ts := by
  induction ts with
  | nil => intro t; exact List.mem_singleton.mpr rfl
  | cons a as ih =>
      intro t
      have hrec := ih (min t a)
      rw [List.foldl_cons]
      rcases List.mem_cons.mp hrec with heq | hmem
      · rw [heq]
        rcases min_choice t a with hc | hc <;> rw [hc]
        · exact List.mem_cons_self t (a :: as)
        · exact List.mem_cons_of_mem t (List.mem_cons_self a as)
      · exact List.mem_cons_of_mem t (List.mem_cons_of_mem a hmem)

theorem le_listPeak (temps : List ℚ) (x : ℚ) (hx : x ∈ temps) : x ≤ listPeak temps := by
  cases temps with
  | nil => simp at hx
  | cons t ts =>
      rcases List.mem_cons.mp hx with rfl | hmem
      · exact (foldl_max_is_ub ts x).1
      · exact (foldl_max_is_ub ts t).2 x hmem

theorem listPeak_mem (temps : List ℚ) (h : temps ≠ []) : listPeak temps ∈ temps := by
  cases temps with
  | nil => exact absurd rfl h
  | cons t ts => exact foldl_max_mem ts t

theorem listMinTemp_le (temps : List ℚ) (x : ℚ) (hx : x ∈ temps) :
    listMinTemp temps ≤ x := by
  cases temps with
  | nil => simp at hx
  | cons t ts =>
      rcases List.mem_cons.mp hx with rfl | hmem
      · exact (foldl_min_is_lb ts x).1
      · exact (foldl_min_is_lb ts t).2 x hmem

theorem listMinTemp_mem (temps : List ℚ) (h : temps ≠ []) :
    listMinTemp temps ∈ temps := by
  cases temps with
  | nil => exact absurd rfl h
  | cons t ts => exact foldl_min_mem ts t

/-- C9: for a non-empty hourly data set, the summary's peak_temp is the
maximum of the hourly temperatures, min_temp the minimum, range their
difference rounded to one decimal, peak_hour the time of a point whose
temperature equals peak_temp, and total_rise_hours / total_fall_hours count
the points tagged rising / falling. -/
theorem hourly_summary_correct (hd : List HourlyPoint) (h : hd ≠ []) :
    (∀ p ∈ hd, p.temperature ≤ (hourlySummary hd).peak_temp) ∧
    (∀ p ∈ hd, (hourlySummary hd).min_temp ≤ p.temperature) ∧
    (∃ p ∈ hd, p.temperature = (hourlySummary hd).peak_temp ∧
      (hourlySummary hd).peak_hour = p.time) ∧
    (∃ p ∈ hd, p.temperature = (hourlySummary hd).min_temp) ∧
    (hourlySummary hd).range
      = round1 ((hourlySummary hd).peak_temp - (hourlySummary hd).min_temp) ∧
    (hourlySummary hd).total_rise_hours
      = (hd.filter (fun p => p.trend = Trend.rising)).length ∧
    (hourlySummary hd).total_fall_hours
      = (hd.filter (fun p => p.trend = Trend.falling)).length := by
  have htempsne : hd.map (fun p => p.temperature) ≠ [] := by
    cases hd with
    | nil => exact absurd rfl h
    | cons p ps => simp
  refine ⟨?_, ?_, ?_, ?_, rfl, rfl, rfl⟩
  · intro p hp
    exact le_listPeak _ _ (List.mem_map_of_mem _ hp)
  · intro p hp
    exact listMinTemp_le _ _ (List.mem_map_of_mem _ hp)
  · obtain ⟨q0, hq0mem, hq0eq⟩ := List.mem_map.mp (listPeak_mem _ htempsne)
    have hsome : (hd.find? (fun p =>
        p.temperature = listPeak (hd.map (fun p => p.temperature)))).isSome := by
      rw [List.find?_isSome]
      exact ⟨q0, hq0mem, by simp [hq0eq]⟩
    obtain ⟨q, hq⟩ := Option.isSome_iff_exists.mp hsome
    refine ⟨q, List.mem_of_find?_eq_some hq, ?_, ?_⟩
    · have := List.find?_some hq
      simpa using this
    · show (match hd.find? (fun p =>
          p.temperature = listPeak (hd.map (fun p => p.temperature))) with
        | some p => p.time
        | none => "14:00") = q.time
      rw [hq]
  · obtain ⟨q0, hq0mem, hq0eq⟩ := List.mem_map.mp (listMinTemp_mem _ htempsne)
    exact ⟨q0, hq0mem, hq0eq⟩

/-- Witness for C9 on a concrete two-point series: the first point is below
the peak, and the range field equals the rounded peak − min difference. -/
theorem hourly_summary_correct_witness :
    (⟨"00:00", 0, 30, 50, 5, 32, 0, .stable⟩ : HourlyPoint).temperature
      ≤ (hourlySummary [⟨"00:00", 0, 30, 50, 5, 32, 0, .stable⟩,
          ⟨"01:00", 1, 31, 50, 5, 33, 1, .rising⟩]).peak_temp ∧
    (hourlySummary [⟨"00:00", 0, 30, 50, 5, 32, 0, .stable⟩,
        ⟨"01:00", 1, 31, 50, 5, 33, 1, .rising⟩]).range
      = round1 ((hourlySummary [⟨"00:00", 0, 30, 50, 5, 32, 0, .stable⟩,
          ⟨"01:00", 1, 31, 50, 5, 33, 1, .rising⟩]).peak_temp
        - (hourlySummary [⟨"00:00", 0, 30, 50, 5, 32, 0, .stable⟩,
          ⟨"01:00", 1, 31, 50, 5, 33, 1, .rising⟩]).min_temp) := by
  have hthm := hourly_summary_correct
    [⟨"00:00", 0, 30, 50, 5, 32, 0, .stable⟩,
     ⟨"01:00", 1, 31, 50, 5, 33, 1, .rising⟩] (List.cons_ne_nil _ _)
  exact ⟨hthm.1 _ (List.mem_cons_self _ _), hthm.2.2.2.2.1⟩

end HeatShield
